import Mathlib

/-!
Verification of the pgBackRest reconciliation logic of
`internal/controller/postgrescluster/pgbackrest.go` against its
natural-language specification.  The Go functions are shallowly
embedded as executable Lean definitions over explicit state records;
Kubernetes API calls (list, delete, apply, exec) are modelled through
environment records that carry their observable outcomes.
-/

namespace PGBackRest

/-- One entry of `Status.PGBackRest.Repos` (`v1beta1.RepoStatus`):
per-repository persisted status. -/
structure RepoStatus where
  name : String
  bound : Bool
  volumeName : String
  repoOptionsHash : String
  stanzaCreated : Bool
  replicaCreateBackupComplete : Bool
deriving DecidableEq, Repr

/-- The fields of a reconciled repository volume
(`v1.PersistentVolumeClaim`) that `getRepoVolumeStatus` reads:
the repo-name label `Labels[naming.LabelPGBackRestRepo]`, whether
`Status.Phase == v1.ClaimBound`, and `Spec.VolumeName`. -/
structure RepoVolume where
  repoLabel : String
  phaseBound : Bool
  volumeName : String
deriving DecidableEq, Repr

/-- The guard shared by both loops of `getRepoVolumeStatus`
(pgbackrest.go lines 1319-1321 and 1354-1356): if the carried-over
status has `ReplicaCreateBackupComplete=true` but its name is not the
current replica-create repo name, reset `ReplicaCreateBackupComplete`
to false. -/
def clearOtherRCBC (replicaCreateRepoName : String) (rs : RepoStatus) : RepoStatus :=
  if rs.replicaCreateBackupComplete && !(rs.name == replicaCreateRepoName) then
    { rs with replicaCreateBackupComplete := false }
  else rs

/-- Lines 1324-1326: update the carried-over `Bound` field from the
reconciled volume's claim phase when it differs. -/
def updateBound (phaseBound : Bool) (rs : RepoStatus) : RepoStatus :=
  if !(rs.bound == phaseBound) then { rs with bound := phaseBound } else rs

/-- Lines 1362-1366: when the stored `RepoOptionsHash` differs from the
newly computed hash, store the new hash and reset `StanzaCreated` and
`ReplicaCreateBackupComplete` to false. -/
def resetOnHashChange (hash : String) (rs : RepoStatus) : RepoStatus :=
  if !(rs.repoOptionsHash == hash) then
    { rs with
        repoOptionsHash := hash
        stanzaCreated := false
        replicaCreateBackupComplete := false }
  else rs

/-- The per-volume step of the first loop of `getRepoVolumeStatus`
(pgbackrest.go lines 1309-1339): carry over the first existing status
entry with a matching name (clearing `ReplicaCreateBackupComplete`
when the name is not the replica-create repo, and refreshing `Bound`),
or make a fresh entry when none matches. -/
def volumeRepoStatus (repoStatus : List RepoStatus) (replicaCreateRepoName : String)
    (rv : RepoVolume) : RepoStatus :=
  match repoStatus.find? (fun rs => rs.name == rv.repoLabel) with
  | some rs => updateBound rv.phaseBound (clearOtherRCBC replicaCreateRepoName rs)
  | none =>
    { name := rv.repoLabel, bound := rv.phaseBound, volumeName := rv.volumeName,
      repoOptionsHash := "", stanzaCreated := false, replicaCreateBackupComplete := false }

/-- The per-hash step of the second loop of `getRepoVolumeStatus`
(pgbackrest.go lines 1345-1378): carry over the first existing status
entry with a matching name (clearing `ReplicaCreateBackupComplete`
when the name is not the replica-create repo, and resetting
`StanzaCreated` and `ReplicaCreateBackupComplete` when the stored hash
differs from the newly computed one), or make a fresh entry when none
matches. -/
def hashRepoStatus (repoStatus : List RepoStatus) (replicaCreateRepoName : String)
    (p : String × String) : RepoStatus :=
  match repoStatus.find? (fun rs => rs.name == p.fst) with
  | some rs => resetOnHashChange p.snd (clearOtherRCBC replicaCreateRepoName rs)
  | none =>
    { name := p.fst, bound := false, volumeName := "", repoOptionsHash := p.snd,
      stanzaCreated := false, replicaCreateBackupComplete := false }

/-- Lexicographic order on character lists, used to model Go's `<` on
strings (byte-wise lexicographic comparison). -/
def charListLt : List Char → List Char → Bool
  | [], [] => false
  | [], _ :: _ => true
  | _ :: _, [] => false
  | a :: as, b :: bs =>
    if a.toNat < b.toNat then true
    else if b.toNat < a.toNat then false
    else charListLt as bs

/-- Go's `name1 < name2` string comparison. -/
def nameLt (a b : String) : Bool := charListLt a.data b.data

/-- Insertion step for sorting repo statuses by name (the comparison is
the Go closure `updatedRepoStatus[i].Name < updatedRepoStatus[j].Name`). -/
def insertByName (rs : RepoStatus) : List RepoStatus → List RepoStatus
  | [] => [rs]
  | x :: xs => if nameLt x.name rs.name then x :: insertByName rs xs else rs :: x :: xs

/-- `sort.Slice(updatedRepoStatus, ...Name < ...Name)` at the end of
`getRepoVolumeStatus`: any sort by name; `sort.Slice` is unstable so
an insertion sort is an adequate model (all the properties proved
below are permutation-invariant). -/
def sortByName : List RepoStatus → List RepoStatus
  | [] => []
  | x :: xs => insertByName x (sortByName xs)

/-- `getRepoVolumeStatus` (pgbackrest.go lines 1300-1386).  The Go map
`configHashes map[string]string` is modelled as an association list
(Go map iteration order is arbitrary; the final sort makes the result
order-independent whenever names are distinct, and all properties
proved below are permutation-invariant). -/
def getRepoVolumeStatus (repoStatus : List RepoStatus) (repoVolumes : List RepoVolume)
    (configHashes : List (String × String)) (replicaCreateRepoName : String) :
    List RepoStatus :=
  sortByName
    (repoVolumes.map (volumeRepoStatus repoStatus replicaCreateRepoName)
      ++ configHashes.map (hashRepoStatus repoStatus replicaCreateRepoName))

lemma insertByName_perm (rs : RepoStatus) (l : List RepoStatus) :
    (insertByName rs l).Perm (rs :: l) := by
  induction l with
  | nil => simp [insertByName]
  | cons x xs ih =>
    simp only [insertByName]
    split
    · exact (List.Perm.cons x ih).trans (List.Perm.swap rs x xs)
    · exact List.Perm.refl _

lemma sortByName_perm (l : List RepoStatus) : (sortByName l).Perm l := by
  induction l with
  | nil => simp [sortByName]
  | cons x xs ih =>
    exact (insertByName_perm x (sortByName xs)).trans (List.Perm.cons x ih)

lemma clearOtherRCBC_name (replicaCreateRepoName : String) (rs : RepoStatus) :
    (clearOtherRCBC replicaCreateRepoName rs).name = rs.name := by
  unfold clearOtherRCBC; split <;> rfl

lemma clearOtherRCBC_repoOptionsHash (replicaCreateRepoName : String) (rs : RepoStatus) :
    (clearOtherRCBC replicaCreateRepoName rs).repoOptionsHash = rs.repoOptionsHash := by
  unfold clearOtherRCBC; split <;> rfl

lemma clearOtherRCBC_stanzaCreated (replicaCreateRepoName : String) (rs : RepoStatus) :
    (clearOtherRCBC replicaCreateRepoName rs).stanzaCreated = rs.stanzaCreated := by
  unfold clearOtherRCBC; split <;> rfl

lemma clearOtherRCBC_rcbc (replicaCreateRepoName : String) (rs : RepoStatus)
    (h : (clearOtherRCBC replicaCreateRepoName rs).replicaCreateBackupComplete = true) :
    rs.name = replicaCreateRepoName := by
  unfold clearOtherRCBC at h
  split at h
  · simp at h
  · rename_i hc
    by_cases hn : rs.name = replicaCreateRepoName
    · exact hn
    · exact absurd (by simp [h, hn]) hc

lemma updateBound_name (phaseBound : Bool) (rs : RepoStatus) :
    (updateBound phaseBound rs).name = rs.name := by
  unfold updateBound; split <;> rfl

lemma updateBound_rcbc (phaseBound : Bool) (rs : RepoStatus) :
    (updateBound phaseBound rs).replicaCreateBackupComplete
      = rs.replicaCreateBackupComplete := by
  unfold updateBound; split <;> rfl

lemma resetOnHashChange_name (hash : String) (rs : RepoStatus) :
    (resetOnHashChange hash rs).name = rs.name := by
  unfold resetOnHashChange; split <;> rfl

lemma resetOnHashChange_rcbc (hash : String) (rs : RepoStatus)
    (h : (resetOnHashChange hash rs).replicaCreateBackupComplete = true) :
    rs.replicaCreateBackupComplete = true := by
  unfold resetOnHashChange at h
  split at h
  · simp at h
  · exact h

lemma volumeRepoStatus_name (repoStatus : List RepoStatus) (replicaCreateRepoName : String)
    (rv : RepoVolume) :
    (volumeRepoStatus repoStatus replicaCreateRepoName rv).name = rv.repoLabel := by
  unfold volumeRepoStatus
  cases hfind : repoStatus.find? (fun rs => rs.name == rv.repoLabel) with
  | none => rfl
  | some rs =>
    have hname : rs.name = rv.repoLabel := by simpa using List.find?_some hfind
    simp [updateBound_name, clearOtherRCBC_name, hname]

lemma hashRepoStatus_name (repoStatus : List RepoStatus) (replicaCreateRepoName : String)
    (p : String × String) :
    (hashRepoStatus repoStatus replicaCreateRepoName p).name = p.fst := by
  unfold hashRepoStatus
  cases hfind : repoStatus.find? (fun rs => rs.name == p.fst) with
  | none => rfl
  | some rs =>
    have hname : rs.name = p.fst := by simpa using List.find?_some hfind
    simp [resetOnHashChange_name, clearOtherRCBC_name, hname]

lemma volumeRepoStatus_rcbc (repoStatus : List RepoStatus) (replicaCreateRepoName : String)
    (rv : RepoVolume)
    (h : (volumeRepoStatus repoStatus replicaCreateRepoName rv).replicaCreateBackupComplete
      = true) :
    (volumeRepoStatus repoStatus replicaCreateRepoName rv).name = replicaCreateRepoName := by
  unfold volumeRepoStatus at h ⊢
  cases hfind : repoStatus.find? (fun rs => rs.name == rv.repoLabel) with
  | none => rw [hfind] at h; simp at h
  | some rs =>
    rw [hfind] at h
    dsimp only at h ⊢
    rw [updateBound_rcbc] at h
    rw [updateBound_name, clearOtherRCBC_name]
    exact clearOtherRCBC_rcbc replicaCreateRepoName rs h

lemma hashRepoStatus_rcbc (repoStatus : List RepoStatus) (replicaCreateRepoName : String)
    (p : String × String)
    (h : (hashRepoStatus repoStatus replicaCreateRepoName p).replicaCreateBackupComplete
      = true) :
    (hashRepoStatus repoStatus replicaCreateRepoName p).name = replicaCreateRepoName := by
  unfold hashRepoStatus at h ⊢
  cases hfind : repoStatus.find? (fun rs => rs.name == p.fst) with
  | none => rw [hfind] at h; simp at h
  | some rs =>
    rw [hfind] at h
    dsimp only at h ⊢
    have h2 := resetOnHashChange_rcbc _ _ h
    rw [resetOnHashChange_name, clearOtherRCBC_name]
    exact clearOtherRCBC_rcbc replicaCreateRepoName rs h2

/-- The multiset of names in the pre-sort status list is exactly the volume
labels followed by the hash-map keys. -/
lemma getRepoVolumeStatus_names (repoStatus : List RepoStatus) (repoVolumes : List RepoVolume)
    (configHashes : List (String × String)) (replicaCreateRepoName : String) :
    ((repoVolumes.map (volumeRepoStatus repoStatus replicaCreateRepoName)
        ++ configHashes.map (hashRepoStatus repoStatus replicaCreateRepoName)).map
      (fun e => e.name))
      = repoVolumes.map (fun rv => rv.repoLabel)
          ++ configHashes.map (fun p => p.fst) := by
  rw [List.map_append, List.map_map, List.map_map]
  congr 1
  · exact List.map_congr_left fun rv _ =>
      volumeRepoStatus_name repoStatus replicaCreateRepoName rv
  · exact List.map_congr_left fun p _ =>
      hashRepoStatus_name repoStatus replicaCreateRepoName p

lemma resetOnHashChange_of_ne (hash : String) (rs : RepoStatus)
    (hne : rs.repoOptionsHash ≠ hash) :
    resetOnHashChange hash rs =
      { rs with
          repoOptionsHash := hash
          stanzaCreated := false
          replicaCreateBackupComplete := false } := by
  unfold resetOnHashChange
  simp [hne]

/-- C1: in `getRepoVolumeStatus`, a carried-over external-repository
status entry whose stored `repoOptionsHash` differs from the newly
computed hash appears in the returned status list with the new hash
and with `stanzaCreated` and `replicaCreateBackupComplete` both reset
to false. -/
theorem getRepoVolumeStatus_hash_change_resets
    (repoStatus : List RepoStatus) (repoVolumes : List RepoVolume)
    (configHashes : List (String × String)) (replicaCreateRepoName n h : String)
    (rs : RepoStatus)
    (hmem : (n, h) ∈ configHashes)
    (hfind : repoStatus.find? (fun rs => rs.name == n) = some rs)
    (hne : rs.repoOptionsHash ≠ h) :
    ∃ e ∈ getRepoVolumeStatus repoStatus repoVolumes configHashes replicaCreateRepoName,
      e.name = n ∧ e.repoOptionsHash = h ∧ e.stanzaCreated = false ∧
        e.replicaCreateBackupComplete = false := by
  have hname : rs.name = n := by simpa using List.find?_some hfind
  have hclear : (clearOtherRCBC replicaCreateRepoName rs).repoOptionsHash ≠ h := by
    rw [clearOtherRCBC_repoOptionsHash]; exact hne
  have heq : hashRepoStatus repoStatus replicaCreateRepoName (n, h)
      = { clearOtherRCBC replicaCreateRepoName rs with
            repoOptionsHash := h
            stanzaCreated := false
            replicaCreateBackupComplete := false } := by
    unfold hashRepoStatus
    rw [hfind]
    exact resetOnHashChange_of_ne h _ hclear
  refine ⟨hashRepoStatus repoStatus replicaCreateRepoName (n, h), ?_, ?_, ?_, ?_, ?_⟩
  · unfold getRepoVolumeStatus
    exact (sortByName_perm _).mem_iff.mpr
      (List.mem_append_right _ (List.mem_map_of_mem _ hmem))
  · rw [heq]
    show (clearOtherRCBC replicaCreateRepoName rs).name = n
    rw [clearOtherRCBC_name]; exact hname
  · rw [heq]
  · rw [heq]
  · rw [heq]

/-- C1 witness: a concrete carried-over external repo whose hash
changed from "oldhash" to "newhash". -/
theorem getRepoVolumeStatus_hash_change_resets_witness :
    (("repo1", "newhash") ∈ [("repo1", "newhash")]
      ∧ List.find? (fun rs => rs.name == "repo1")
          [(⟨"repo1", false, "", "oldhash", true, true⟩ : RepoStatus)]
          = some ⟨"repo1", false, "", "oldhash", true, true⟩
      ∧ (RepoStatus.repoOptionsHash ⟨"repo1", false, "", "oldhash", true, true⟩) ≠ "newhash")
    ∧ ∃ e ∈ getRepoVolumeStatus [⟨"repo1", false, "", "oldhash", true, true⟩] []
          [("repo1", "newhash")] "repo1",
        e.name = "repo1" ∧ e.repoOptionsHash = "newhash" ∧ e.stanzaCreated = false ∧
          e.replicaCreateBackupComplete = false :=
  ⟨⟨by decide, by decide, by decide⟩,
    getRepoVolumeStatus_hash_change_resets
      [⟨"repo1", false, "", "oldhash", true, true⟩] [] [("repo1", "newhash")]
      "repo1" "repo1" "newhash" ⟨"repo1", false, "", "oldhash", true, true⟩
      (by decide) (by decide) (by decide)⟩

/-- C2 counterexample: with a prior status entry for "repo1" with
`replicaCreateBackupComplete=true`, a reconciled volume labelled
"repo1" AND an external-hash entry for "repo1" (an input the function
accepts), both loops carry the entry over, so the returned list has
two entries with `replicaCreateBackupComplete=true`: the claim's
"at most one" fails for unrestricted inputs. -/
theorem getRepoVolumeStatus_rcbc_unique_cex :
    ¬ (((getRepoVolumeStatus [⟨"repo1", true, "v", "h", true, true⟩]
          [⟨"repo1", true, "v"⟩] [("repo1", "h")] "repo1").countP
            (fun e => e.replicaCreateBackupComplete) ≤ 1)
      ∧ (∀ e ∈ getRepoVolumeStatus [⟨"repo1", true, "v", "h", true, true⟩]
            [⟨"repo1", true, "v"⟩] [("repo1", "h")] "repo1",
          e.replicaCreateBackupComplete = true → e.name = "repo1")
      ∧ (∀ e ∈ getRepoVolumeStatus [⟨"repo1", true, "v", "h", true, true⟩]
            [⟨"repo1", true, "v"⟩] [("repo1", "h")] "repo1",
          e.name ≠ "repo1" → e.replicaCreateBackupComplete = false)) := by
  decide

/-- C2 (amended): provided each repository name appears at most once
across the reconciled volumes and the external-hash map (which holds
for the caller `reconcileRepos`, since spec repo names are unique and
each repo is either volume-backed or hash-backed), the returned status
list has at most one entry with `replicaCreateBackupComplete=true`,
any such entry is named after the replica-create repository, and every
entry with a different name has `replicaCreateBackupComplete=false`. -/
theorem getRepoVolumeStatus_rcbc_unique
    (repoStatus : List RepoStatus) (repoVolumes : List RepoVolume)
    (configHashes : List (String × String)) (replicaCreateRepoName : String)
    (hnodup : (repoVolumes.map (fun rv => rv.repoLabel)
        ++ configHashes.map (fun p => p.fst)).Nodup) :
    ((getRepoVolumeStatus repoStatus repoVolumes configHashes replicaCreateRepoName).countP
        (fun e => e.replicaCreateBackupComplete) ≤ 1)
    ∧ (∀ e ∈ getRepoVolumeStatus repoStatus repoVolumes configHashes replicaCreateRepoName,
        e.replicaCreateBackupComplete = true → e.name = replicaCreateRepoName)
    ∧ (∀ e ∈ getRepoVolumeStatus repoStatus repoVolumes configHashes replicaCreateRepoName,
        e.name ≠ replicaCreateRepoName → e.replicaCreateBackupComplete = false) := by
  have hall : ∀ e ∈ repoVolumes.map (volumeRepoStatus repoStatus replicaCreateRepoName)
      ++ configHashes.map (hashRepoStatus repoStatus replicaCreateRepoName),
      e.replicaCreateBackupComplete = true → e.name = replicaCreateRepoName := by
    intro e he hrc
    rcases List.mem_append.mp he with h1 | h1
    · rcases List.mem_map.mp h1 with ⟨rv, _, rfl⟩
      exact volumeRepoStatus_rcbc _ _ _ hrc
    · rcases List.mem_map.mp h1 with ⟨p, _, rfl⟩
      exact hashRepoStatus_rcbc _ _ _ hrc
  have hperm := sortByName_perm
    (repoVolumes.map (volumeRepoStatus repoStatus replicaCreateRepoName)
      ++ configHashes.map (hashRepoStatus repoStatus replicaCreateRepoName))
  refine ⟨?_, ?_, ?_⟩
  · unfold getRepoVolumeStatus
    rw [hperm.countP_eq]
    calc (repoVolumes.map (volumeRepoStatus repoStatus replicaCreateRepoName)
          ++ configHashes.map (hashRepoStatus repoStatus replicaCreateRepoName)).countP
            (fun e => e.replicaCreateBackupComplete)
        ≤ (repoVolumes.map (volumeRepoStatus repoStatus replicaCreateRepoName)
            ++ configHashes.map (hashRepoStatus repoStatus replicaCreateRepoName)).countP
              (fun e => e.name == replicaCreateRepoName) := by
          apply List.countP_mono_left
          intro a ha hpa
          simp [hall a ha hpa]
      _ = ((repoVolumes.map (volumeRepoStatus repoStatus replicaCreateRepoName)
            ++ configHashes.map (hashRepoStatus repoStatus replicaCreateRepoName)).map
              (fun e => e.name)).countP (fun x => x == replicaCreateRepoName) := by
          rw [List.countP_map]; rfl
      _ = (repoVolumes.map (fun rv => rv.repoLabel)
            ++ configHashes.map (fun p => p.fst)).countP (fun x => x == replicaCreateRepoName) := by
          rw [getRepoVolumeStatus_names]
      _ = (repoVolumes.map (fun rv => rv.repoLabel)
            ++ configHashes.map (fun p => p.fst)).count replicaCreateRepoName := rfl
      _ ≤ 1 := List.nodup_iff_count_le_one.mp hnodup _
  · intro e he hrc
    exact hall e (hperm.mem_iff.mp he) hrc
  · intro e he hn
    by_contra hne
    rw [Bool.not_eq_false] at hne
    exact hn (hall e (hperm.mem_iff.mp he) hne)

/-- C2 witness: one volume-backed repo and one hash-backed repo with
distinct names. -/
theorem getRepoVolumeStatus_rcbc_unique_witness :
    ((([(⟨"repo1", true, "v"⟩ : RepoVolume)].map (fun rv => rv.repoLabel)
        ++ [("repo2", "h2")].map (fun p => p.fst)).Nodup)
    ∧ ((getRepoVolumeStatus [] [⟨"repo1", true, "v"⟩] [("repo2", "h2")] "repo1").countP
          (fun e => e.replicaCreateBackupComplete) ≤ 1)
      ∧ (∀ e ∈ getRepoVolumeStatus [] [⟨"repo1", true, "v"⟩] [("repo2", "h2")] "repo1",
          e.replicaCreateBackupComplete = true → e.name = "repo1")
      ∧ (∀ e ∈ getRepoVolumeStatus [] [⟨"repo1", true, "v"⟩] [("repo2", "h2")] "repo1",
          e.name ≠ "repo1" → e.replicaCreateBackupComplete = false)) :=
  ⟨by decide,
    getRepoVolumeStatus_rcbc_unique [] [⟨"repo1", true, "v"⟩] [("repo2", "h2")] "repo1"
      (by decide)⟩

/-! ## Condition ledger (`metav1.Condition` and the `meta` helpers) -/

/-- `metav1.ConditionStatus`. -/
inductive CondStatus
  | condTrue
  | condFalse
  | condUnknown
deriving DecidableEq, Repr

/-- `metav1.Condition` — the fields this controller reads and writes
(`LastTransitionTime` is wall-clock time and is not modelled). -/
structure Condition where
  condType : String
  status : CondStatus
  reason : String
  message : String
  observedGeneration : Nat
deriving DecidableEq, Repr

/-- `ConditionReplicaCreate` (pgbackrest.go line 55). -/
def ConditionReplicaCreate : String := "PGBackRestReplicaCreate"

/-- `ConditionReplicaRepoReady` (line 59). -/
def ConditionReplicaRepoReady : String := "PGBackRestReplicaRepoReady"

/-- `ConditionRepoHostReady` (line 63). -/
def ConditionRepoHostReady : String := "PGBackRestRepoHostReady"

/-- `EventStanzasCreated` (line 79). -/
def EventStanzasCreated : String := "StanzasCreated"

/-- `EventUnableToCreateStanzas` (line 75). -/
def EventUnableToCreateStanzas : String := "UnableToCreateStanzas"

/-- `meta.FindStatusCondition`: the first condition with the given type. -/
def findStatusCondition (conditions : List Condition) (condType : String) :
    Option Condition :=
  conditions.find? (fun c => c.condType == condType)

/-- `meta.SetStatusCondition`: upsert by type — replace the first
condition with the same type, or append when none exists. -/
def setStatusCondition : List Condition → Condition → List Condition
  | [], newCondition => [newCondition]
  | c :: rest, newCondition =>
    if c.condType == newCondition.condType then newCondition :: rest
    else c :: setStatusCondition rest newCondition

lemma findStatusCondition_setStatusCondition (conditions : List Condition) (c : Condition) :
    findStatusCondition (setStatusCondition conditions c) c.condType = some c := by
  induction conditions with
  | nil => simp [setStatusCondition, findStatusCondition]
  | cons x xs ih =>
    unfold setStatusCondition
    by_cases hx : (x.condType == c.condType) = true
    · simp [hx, findStatusCondition]
    · simp only [hx, if_false, Bool.false_eq_true, findStatusCondition, List.find?] at ih ⊢
      exact ih

/-! ## Cluster state shared by the stanza and backup reconcilers -/

/-- The slice of `v1beta1.PostgresCluster` that `reconcileStanzaCreate`
and `reconcileReplicaCreateBackup` read and write: the ordered spec
repo names (`Spec.Archive.PGBackRest.Repos`; index 0 is the
replica-create repo), whether a dedicated repo host is enabled
(`pgbackrest.DedicatedRepoHostEnabled`), the per-repo status entries
(`Status.PGBackRest.Repos`), the condition ledger
(`Status.Conditions`), whether the cluster is bootstrapped
(`patroni.ClusterBootstrapped`), and the object generation. -/
structure ClusterState where
  specRepoNames : List String
  dedicatedEnabled : Bool
  statusRepos : List RepoStatus
  conditions : List Condition
  bootstrapped : Bool
  generation : Nat
deriving DecidableEq, Repr

/-- Lines 1166-1171 (and 957-962): the dedicated-repo-host readiness
gate.  `dedicatedRepoReady` defaults to true and is overwritten from
the `ConditionRepoHostReady` condition only when that condition is
present in the ledger. -/
def hostGateReady (conditions : List Condition) : Bool :=
  match findStatusCondition conditions ConditionRepoHostReady with
  | some condition => condition.status == CondStatus.condTrue
  | none => true

/-- Lines 925-929: `replicaRepoReady` defaults to false and is
overwritten from the `ConditionReplicaRepoReady` condition when
present. -/
def replicaRepoGateReady (conditions : List Condition) : Bool :=
  match findStatusCondition conditions ConditionReplicaRepoReady with
  | some condition => condition.status == CondStatus.condTrue
  | none => false

/-! ## `reconcileStanzaCreate` (pgbackrest.go lines 1124-1240) -/

/-- Outcome of `pgbackrest.Executor(exec).StanzaCreate(ctx, configHash)`:
success, the distinguished config-hash-mismatch outcome, or a command
failure. -/
inductive ExecOutcome
  | ok
  | hashMismatch
  | execFailed (msg : String)
deriving DecidableEq, Repr

/-- Observable outcomes of the Kubernetes API calls that
`reconcileStanzaCreate` makes: whether `getPGBackRestExecSelector`
fails, whether the pod list call fails, how many pods the list
returns, and the stanza-create exec outcome. -/
structure StanzaEnv where
  selectorError : Bool
  listError : Bool
  podCount : Nat
  execResult : ExecOutcome
deriving DecidableEq, Repr

/-- An `r.Recorder.Event` call. -/
structure Event where
  eventType : String
  reason : String
deriving DecidableEq, Repr

structure StanzaBodyOut where
  statusRepos : List RepoStatus
  events : List Event
  listedPods : Bool
  mismatch : Bool
  err : Option String
deriving DecidableEq, Repr

/-- The body of `reconcileStanzaCreate` (lines 1163-1239: everything
except the deferred condition update): precondition gates, exec
selector, pod listing, stanza-create exec, and the resulting status
mutation, events and return values.  `mismatch` and `err` are the Go
return values; `listedPods` records whether the pod list call was
issued. -/
def reconcileStanzaCreateBody (s : ClusterState) (env : StanzaEnv) : StanzaBodyOut :=
  let clusterBootstrapped := s.bootstrapped
  let dedicatedRepoReady := hostGateReady s.conditions
  let stanzasCreated := s.statusRepos.all (fun repoStatus => repoStatus.stanzaCreated)
  if !clusterBootstrapped || !dedicatedRepoReady || stanzasCreated then
    { statusRepos := s.statusRepos, events := [], listedPods := false,
      mismatch := false, err := none }
  else if env.selectorError then
    { statusRepos := s.statusRepos, events := [], listedPods := false,
      mismatch := false, err := some "selector error" }
  else if env.listError then
    { statusRepos := s.statusRepos, events := [], listedPods := true,
      mismatch := false, err := some "list error" }
  else if !(env.podCount == 1) then
    { statusRepos := s.statusRepos, events := [], listedPods := true,
      mismatch := false,
      err := some "invalid number of Pods found when attempting to create stanzas" }
  else
    match env.execResult with
    | ExecOutcome.execFailed msg =>
      { statusRepos := s.statusRepos,
        events := [{ eventType := "Warning", reason := EventUnableToCreateStanzas }],
        listedPods := true, mismatch := false, err := some msg }
    | ExecOutcome.hashMismatch =>
      { statusRepos := s.statusRepos, events := [], listedPods := true,
        mismatch := true, err := none }
    | ExecOutcome.ok =>
      { statusRepos := s.statusRepos.map (fun rs => { rs with stanzaCreated := true }),
        events := [{ eventType := "Normal", reason := EventStanzasCreated }],
        listedPods := true, mismatch := false, err := none }

/-- The `ConditionReplicaRepoReady` condition computed by the deferred
closure of `reconcileStanzaCreate` (lines 1141-1159) from the
post-body status entry of the replica-create repository. -/
def replicaRepoReadyCondition (statusRepos : List RepoStatus)
    (replicaCreateRepoName : String) (generation : Nat) : Condition :=
  match statusRepos.find? (fun r => r.name == replicaCreateRepoName) with
  | none =>
    { condType := ConditionReplicaRepoReady, status := CondStatus.condUnknown,
      reason := "RepoStatusMissing",
      message := "Status is missing for the replica creation repo",
      observedGeneration := generation }
  | some replicaCreateRepoStatus =>
    if replicaCreateRepoStatus.stanzaCreated then
      { condType := ConditionReplicaRepoReady, status := CondStatus.condTrue,
        reason := "StanzaCreated",
        message := "pgBackRest replica create repo is ready for backups",
        observedGeneration := generation }
    else
      { condType := ConditionReplicaRepoReady, status := CondStatus.condFalse,
        reason := "StanzaNotCreated",
        message := "pgBackRest replica create repo is not ready for backups",
        observedGeneration := generation }

/-- The deferred closure of `reconcileStanzaCreate` (lines 1128-1161):
a no-op when the spec declares no repos (line 1130-1132), otherwise an
upsert of the recomputed `ConditionReplicaRepoReady` condition. -/
def stanzaDeferredConditions (specRepoNames : List String)
    (statusRepos : List RepoStatus) (conditions : List Condition)
    (generation : Nat) : List Condition :=
  match specRepoNames with
  | [] => conditions
  | replicaCreateRepoName :: _ =>
    setStatusCondition conditions
      (replicaRepoReadyCondition statusRepos replicaCreateRepoName generation)

structure StanzaResult where
  statusRepos : List RepoStatus
  conditions : List Condition
  events : List Event
  listedPods : Bool
  mismatch : Bool
  err : Option String
deriving DecidableEq, Repr

/-- `reconcileStanzaCreate` (lines 1124-1240): the body, followed at
return time by the deferred condition update, which observes the
body's status mutation but runs on the pre-body condition ledger
(the body never writes conditions). -/
def reconcileStanzaCreate (s : ClusterState) (env : StanzaEnv) : StanzaResult :=
  let body := reconcileStanzaCreateBody s env
  { statusRepos := body.statusRepos,
    conditions := stanzaDeferredConditions s.specRepoNames body.statusRepos
      s.conditions s.generation,
    events := body.events, listedPods := body.listedPods,
    mismatch := body.mismatch, err := body.err }

lemma find?_name_map_setStanza (l : List RepoStatus) (n : String) :
    (l.map (fun rs => { rs with stanzaCreated := true })).find? (fun r => r.name == n)
      = (l.find? (fun r => r.name == n)).map
          (fun rs => { rs with stanzaCreated := true }) := by
  induction l with
  | nil => rfl
  | cons x xs ih =>
    by_cases hx : (x.name == n) = true
    · simp [List.find?_cons_of_pos, hx]
    · simpa [List.find?_cons_of_neg, hx] using ih

/-- C4: on every exit path of `reconcileStanzaCreate` (given the spec
declares at least one repository, so that the replica-create (index 0)
repository exists), the final condition ledger is exactly one
`setStatusCondition` upsert, into the pre-call ledger, of the
`ReplicaRepoReady` condition recomputed from the post-call
`stanzaCreated` state of the replica-create repository's status
entry. -/
theorem reconcileStanzaCreate_condition_upsert (s : ClusterState) (env : StanzaEnv)
    (replicaCreateRepoName : String) (rest : List String)
    (hspec : s.specRepoNames = replicaCreateRepoName :: rest) :
    (reconcileStanzaCreate s env).conditions
      = setStatusCondition s.conditions
          (replicaRepoReadyCondition (reconcileStanzaCreate s env).statusRepos
            replicaCreateRepoName s.generation) := by
  simp [reconcileStanzaCreate, stanzaDeferredConditions, hspec]

/-- C4 witness: a bootstrapped single-repo cluster on the success
path. -/
theorem reconcileStanzaCreate_condition_upsert_witness :
    (ClusterState.specRepoNames
        ⟨["repo1"], false, [⟨"repo1", false, "", "", false, false⟩], [], true, 3⟩
      = "repo1" :: [])
    ∧ (reconcileStanzaCreate
          ⟨["repo1"], false, [⟨"repo1", false, "", "", false, false⟩], [], true, 3⟩
          ⟨false, false, 1, ExecOutcome.ok⟩).conditions
        = setStatusCondition
            (ClusterState.conditions
              ⟨["repo1"], false, [⟨"repo1", false, "", "", false, false⟩], [], true, 3⟩)
            (replicaRepoReadyCondition
              (reconcileStanzaCreate
                ⟨["repo1"], false, [⟨"repo1", false, "", "", false, false⟩], [], true, 3⟩
                ⟨false, false, 1, ExecOutcome.ok⟩).statusRepos
              "repo1" 3) :=
  ⟨rfl,
    reconcileStanzaCreate_condition_upsert
      ⟨["repo1"], false, [⟨"repo1", false, "", "", false, false⟩], [], true, 3⟩
      ⟨false, false, 1, ExecOutcome.ok⟩ "repo1" [] rfl⟩

/-- C5 counterexample: with the cluster not yet bootstrapped (so the
claim's precondition holds), `reconcileStanzaCreate` does return
`(false, nil)` with no pod listing and no events, but it still mutates
the status: the deferred finalizer upserts the `ReplicaRepoReady`
condition into the (here initially empty) condition ledger, so "no
status field is mutated" is false. -/
theorem reconcileStanzaCreate_noop_cex :
    ¬ ((reconcileStanzaCreate ⟨["repo1"], false, [], [], false, 0⟩
          ⟨false, false, 1, ExecOutcome.ok⟩).mismatch = false
      ∧ (reconcileStanzaCreate ⟨["repo1"], false, [], [], false, 0⟩
          ⟨false, false, 1, ExecOutcome.ok⟩).err = none
      ∧ (reconcileStanzaCreate ⟨["repo1"], false, [], [], false, 0⟩
          ⟨false, false, 1, ExecOutcome.ok⟩).listedPods = false
      ∧ (reconcileStanzaCreate ⟨["repo1"], false, [], [], false, 0⟩
          ⟨false, false, 1, ExecOutcome.ok⟩).events = []
      ∧ (reconcileStanzaCreate ⟨["repo1"], false, [], [], false, 0⟩
          ⟨false, false, 1, ExecOutcome.ok⟩).statusRepos = []
      ∧ (reconcileStanzaCreate ⟨["repo1"], false, [], [], false, 0⟩
          ⟨false, false, 1, ExecOutcome.ok⟩).conditions = []) := by
  decide

/-- C5 (amended): when the cluster is not bootstrapped, or the
repo-host-ready gate is false, or every repository status entry
already has `stanzaCreated=true`, `reconcileStanzaCreate` returns
`(false, nil)` without listing pods, without executing any command
(hence no events) and without mutating any repository status entry;
the only status write is the deferred `ReplicaRepoReady` condition
upsert, which runs on every path. -/
theorem reconcileStanzaCreate_noop (s : ClusterState) (env : StanzaEnv)
    (h : s.bootstrapped = false ∨ hostGateReady s.conditions = false
      ∨ s.statusRepos.all (fun r => r.stanzaCreated) = true) :
    (reconcileStanzaCreate s env).mismatch = false
    ∧ (reconcileStanzaCreate s env).err = none
    ∧ (reconcileStanzaCreate s env).listedPods = false
    ∧ (reconcileStanzaCreate s env).events = []
    ∧ (reconcileStanzaCreate s env).statusRepos = s.statusRepos
    ∧ (reconcileStanzaCreate s env).conditions
        = stanzaDeferredConditions s.specRepoNames s.statusRepos s.conditions
            s.generation := by
  rcases h with h | h | h <;>
    simp [reconcileStanzaCreate, reconcileStanzaCreateBody, h]

/-- C5 witness: a cluster that is not bootstrapped. -/
theorem reconcileStanzaCreate_noop_witness :
    (ClusterState.bootstrapped ⟨["repo1"], false, [], [], false, 0⟩ = false
      ∨ hostGateReady (ClusterState.conditions ⟨["repo1"], false, [], [], false, 0⟩) = false
      ∨ (ClusterState.statusRepos ⟨["repo1"], false, [], [], false, 0⟩).all
          (fun r => r.stanzaCreated) = true)
    ∧ ((reconcileStanzaCreate ⟨["repo1"], false, [], [], false, 0⟩
          ⟨false, false, 0, ExecOutcome.ok⟩).mismatch = false
      ∧ (reconcileStanzaCreate ⟨["repo1"], false, [], [], false, 0⟩
          ⟨false, false, 0, ExecOutcome.ok⟩).err = none
      ∧ (reconcileStanzaCreate ⟨["repo1"], false, [], [], false, 0⟩
          ⟨false, false, 0, ExecOutcome.ok⟩).listedPods = false
      ∧ (reconcileStanzaCreate ⟨["repo1"], false, [], [], false, 0⟩
          ⟨false, false, 0, ExecOutcome.ok⟩).events = []
      ∧ (reconcileStanzaCreate ⟨["repo1"], false, [], [], false, 0⟩
          ⟨false, false, 0, ExecOutcome.ok⟩).statusRepos
          = ClusterState.statusRepos ⟨["repo1"], false, [], [], false, 0⟩
      ∧ (reconcileStanzaCreate ⟨["repo1"], false, [], [], false, 0⟩
          ⟨false, false, 0, ExecOutcome.ok⟩).conditions
          = stanzaDeferredConditions ["repo1"] [] [] 0) :=
  ⟨Or.inl rfl,
    reconcileStanzaCreate_noop ⟨["repo1"], false, [], [], false, 0⟩
      ⟨false, false, 0, ExecOutcome.ok⟩ (Or.inl rfl)⟩

/-- C6: when the stanza-create command reports a config-hash mismatch,
`reconcileStanzaCreate` returns `(true, nil)`, records no event and
sets no repository's `stanzaCreated` flag. -/
theorem reconcileStanzaCreate_hash_mismatch (s : ClusterState) (env : StanzaEnv)
    (hboot : s.bootstrapped = true)
    (hgate : hostGateReady s.conditions = true)
    (hsome : s.statusRepos.all (fun r => r.stanzaCreated) = false)
    (hsel : env.selectorError = false) (hlist : env.listError = false)
    (hpod : env.podCount = 1)
    (hexec : env.execResult = ExecOutcome.hashMismatch) :
    (reconcileStanzaCreate s env).mismatch = true
    ∧ (reconcileStanzaCreate s env).err = none
    ∧ (reconcileStanzaCreate s env).events = []
    ∧ (reconcileStanzaCreate s env).statusRepos = s.statusRepos := by
  simp [reconcileStanzaCreate, reconcileStanzaCreateBody, hboot, hgate, hsome, hsel,
    hlist, hpod, hexec]

/-- C6 witness: a bootstrapped single-repo cluster whose exec reports
a hash mismatch. -/
theorem reconcileStanzaCreate_hash_mismatch_witness :
    (ClusterState.bootstrapped
        ⟨["repo1"], false, [⟨"repo1", false, "", "", false, false⟩], [], true, 0⟩ = true
      ∧ hostGateReady [] = true
      ∧ ([(⟨"repo1", false, "", "", false, false⟩ : RepoStatus)].all
          (fun r => r.stanzaCreated)) = false)
    ∧ ((reconcileStanzaCreate
          ⟨["repo1"], false, [⟨"repo1", false, "", "", false, false⟩], [], true, 0⟩
          ⟨false, false, 1, ExecOutcome.hashMismatch⟩).mismatch = true
      ∧ (reconcileStanzaCreate
          ⟨["repo1"], false, [⟨"repo1", false, "", "", false, false⟩], [], true, 0⟩
          ⟨false, false, 1, ExecOutcome.hashMismatch⟩).err = none
      ∧ (reconcileStanzaCreate
          ⟨["repo1"], false, [⟨"repo1", false, "", "", false, false⟩], [], true, 0⟩
          ⟨false, false, 1, ExecOutcome.hashMismatch⟩).events = []
      ∧ (reconcileStanzaCreate
          ⟨["repo1"], false, [⟨"repo1", false, "", "", false, false⟩], [], true, 0⟩
          ⟨false, false, 1, ExecOutcome.hashMismatch⟩).statusRepos
          = [⟨"repo1", false, "", "", false, false⟩]) :=
  ⟨⟨rfl, rfl, rfl⟩,
    reconcileStanzaCreate_hash_mismatch
      ⟨["repo1"], false, [⟨"repo1", false, "", "", false, false⟩], [], true, 0⟩
      ⟨false, false, 1, ExecOutcome.hashMismatch⟩ rfl rfl rfl rfl rfl rfl rfl⟩

/-- C7: on the success path (bootstrapped, host gate true, some
repository without a stanza, exactly one pod, exec succeeds with no
hash mismatch), every repository status entry gets
`stanzaCreated=true`, exactly one Normal `StanzasCreated` event is
recorded, the function returns `(false, nil)`, and the
`ReplicaRepoReady` condition in the final ledger is True (given a
status entry for the replica-create (index 0) repository exists). -/
theorem reconcileStanzaCreate_success (s : ClusterState) (env : StanzaEnv)
    (replicaCreateRepoName : String) (rest : List String)
    (hspec : s.specRepoNames = replicaCreateRepoName :: rest)
    (hentry : ∃ rs ∈ s.statusRepos, (rs.name == replicaCreateRepoName) = true)
    (hboot : s.bootstrapped = true)
    (hgate : hostGateReady s.conditions = true)
    (hsome : s.statusRepos.all (fun r => r.stanzaCreated) = false)
    (hsel : env.selectorError = false) (hlist : env.listError = false)
    (hpod : env.podCount = 1)
    (hexec : env.execResult = ExecOutcome.ok) :
    (∀ rs ∈ (reconcileStanzaCreate s env).statusRepos, rs.stanzaCreated = true)
    ∧ (reconcileStanzaCreate s env).events
        = [{ eventType := "Normal", reason := EventStanzasCreated }]
    ∧ (reconcileStanzaCreate s env).mismatch = false
    ∧ (reconcileStanzaCreate s env).err = none
    ∧ ∃ c, findStatusCondition (reconcileStanzaCreate s env).conditions
            ConditionReplicaRepoReady = some c ∧ c.status = CondStatus.condTrue := by
  have hbody : reconcileStanzaCreateBody s env
      = { statusRepos := s.statusRepos.map (fun rs => { rs with stanzaCreated := true }),
          events := [{ eventType := "Normal", reason := EventStanzasCreated }],
          listedPods := true, mismatch := false, err := none } := by
    simp [reconcileStanzaCreateBody, hboot, hgate, hsome, hsel, hlist, hpod, hexec]
  have hfind : (s.statusRepos.map (fun rs => { rs with stanzaCreated := true })).find?
      (fun r => r.name == replicaCreateRepoName) ≠ none := by
    rw [find?_name_map_setStanza]
    rcases hentry with ⟨rs, hmem, hname⟩
    have : (s.statusRepos.find? (fun r => r.name == replicaCreateRepoName)).isSome := by
      rw [List.find?_isSome]
      exact ⟨rs, hmem, hname⟩
    rcases Option.isSome_iff_exists.mp this with ⟨a, ha⟩
    simp [ha]
  refine ⟨?_, ?_, ?_, ?_, ?_⟩
  · intro rs hmem
    have : rs ∈ s.statusRepos.map (fun rs => { rs with stanzaCreated := true }) := by
      simpa [reconcileStanzaCreate, hbody] using hmem
    rcases List.mem_map.mp this with ⟨a, _, rfl⟩
    rfl
  · simp [reconcileStanzaCreate, hbody]
  · simp [reconcileStanzaCreate, hbody]
  · simp [reconcileStanzaCreate, hbody]
  · rcases Option.ne_none_iff_exists.mp hfind with ⟨a, ha⟩
    have hcond : replicaRepoReadyCondition
        (s.statusRepos.map (fun rs => { rs with stanzaCreated := true }))
        replicaCreateRepoName s.generation
        = { condType := ConditionReplicaRepoReady, status := CondStatus.condTrue,
            reason := "StanzaCreated",
            message := "pgBackRest replica create repo is ready for backups",
            observedGeneration := s.generation } := by
      have hstz : a.stanzaCreated = true := by
        rw [find?_name_map_setStanza] at ha
        rcases Option.map_eq_some'.mp ha.symm with ⟨b, _, hb⟩
        rw [← hb]
      unfold replicaRepoReadyCondition
      rw [← ha]
      simp [hstz]
    have hthis : (reconcileStanzaCreate s env).conditions
        = setStatusCondition s.conditions
            (replicaRepoReadyCondition
              (s.statusRepos.map (fun rs => { rs with stanzaCreated := true }))
              replicaCreateRepoName s.generation) := by
      simp [reconcileStanzaCreate, stanzaDeferredConditions, hspec, hbody]
    refine ⟨{ condType := ConditionReplicaRepoReady, status := CondStatus.condTrue,
              reason := "StanzaCreated",
              message := "pgBackRest replica create repo is ready for backups",
              observedGeneration := s.generation }, ?_, rfl⟩
    rw [hthis, hcond]
    exact findStatusCondition_setStatusCondition s.conditions _

/-- C7 witness: single repo `db` without a stanza, success exec. -/
theorem reconcileStanzaCreate_success_witness :
    (ClusterState.specRepoNames
        ⟨["db"], false, [⟨"db", false, "", "", false, false⟩], [], true, 0⟩ = "db" :: []
      ∧ (∃ rs ∈ [(⟨"db", false, "", "", false, false⟩ : RepoStatus)],
          (rs.name == "db") = true)
      ∧ ([(⟨"db", false, "", "", false, false⟩ : RepoStatus)].all
          (fun r => r.stanzaCreated)) = false)
    ∧ ((∀ rs ∈ (reconcileStanzaCreate
            ⟨["db"], false, [⟨"db", false, "", "", false, false⟩], [], true, 0⟩
            ⟨false, false, 1, ExecOutcome.ok⟩).statusRepos, rs.stanzaCreated = true)
      ∧ (reconcileStanzaCreate
            ⟨["db"], false, [⟨"db", false, "", "", false, false⟩], [], true, 0⟩
            ⟨false, false, 1, ExecOutcome.ok⟩).events
          = [{ eventType := "Normal", reason := EventStanzasCreated }]
      ∧ (reconcileStanzaCreate
            ⟨["db"], false, [⟨"db", false, "", "", false, false⟩], [], true, 0⟩
            ⟨false, false, 1, ExecOutcome.ok⟩).mismatch = false
      ∧ (reconcileStanzaCreate
            ⟨["db"], false, [⟨"db", false, "", "", false, false⟩], [], true, 0⟩
            ⟨false, false, 1, ExecOutcome.ok⟩).err = none
      ∧ ∃ c, findStatusCondition (reconcileStanzaCreate
            ⟨["db"], false, [⟨"db", false, "", "", false, false⟩], [], true, 0⟩
            ⟨false, false, 1, ExecOutcome.ok⟩).conditions
              ConditionReplicaRepoReady = some c ∧ c.status = CondStatus.condTrue) :=
  ⟨⟨rfl, ⟨⟨"db", false, "", "", false, false⟩, by decide, by decide⟩, rfl⟩,
    reconcileStanzaCreate_success
      ⟨["db"], false, [⟨"db", false, "", "", false, false⟩], [], true, 0⟩
      ⟨false, false, 1, ExecOutcome.ok⟩ "db" [] rfl
      ⟨⟨"db", false, "", "", false, false⟩, by decide, by decide⟩
      rfl rfl rfl rfl rfl rfl rfl⟩


/-! ## `reconcileReplicaCreateBackup` (pgbackrest.go lines 878-1072) -/

/-- Modelled from the spec: `pgbackrest.CMRepoKey`, the shared
config-map key used as the config-file name when a dedicated repo host
is enabled.  Its defining file is outside src/; the spec treats it as
an opaque key, so its concrete value is irrelevant here. -/
def cmRepoKey : String := "pgbackrest_repo.conf"

/-- Lines 951-955: the name of the pgBackRest config file mounted into
the backup Job — the per-primary file `primaryInstance + ".conf"`, or
the shared config-map key when dedicated hosting is enabled. -/
def currentConfigName (dedicatedEnabled : Bool) (primaryInstance : String) : String :=
  if dedicatedEnabled then cmRepoKey else primaryInstance ++ ".conf"

/-- The fields of an existing replica-create backup Job that
`reconcileReplicaCreateBackup` reads: its repo-name label
(`Labels[naming.LabelPGBackRestRepo]`), its config annotations
(`Annotations[naming.PGBackRestCurrentConfig]` and
`Annotations[naming.PGBackRestConfigHash]`), and the results of the
`jobFailed` / `jobCompleted` helpers (predicates over the Job's
condition list, defined outside this file and treated as observations
of the Job). -/
structure BackupJob where
  repoLabel : String
  currentConfigAnno : String
  configHashAnno : String
  failed : Bool
  completed : Bool
deriving DecidableEq, Repr

/-- Observable outcomes of the Kubernetes API calls that
`reconcileReplicaCreateBackup` makes: selector construction, the pod
list call and its size, the primary-instance label of the single
matching pod, and whether delete/apply calls fail. -/
structure BackupEnv where
  selectorError : Bool
  listError : Bool
  podCount : Nat
  primaryInstance : String
  deleteError : Bool
  applyError : Bool
deriving DecidableEq, Repr

structure BackupBodyOut where
  statusRepos : List RepoStatus
  deletes : Nat
  applied : Bool
  listedPods : Bool
  err : Option String
deriving DecidableEq, Repr

/-- Line 1013: the write through the captured
`replicaCreateRepoStatus` pointer into `Status.PGBackRest.Repos` —
set `ReplicaCreateBackupComplete` on the first entry with the
replica-create repo's name. -/
def markReplicaCreateBackupComplete : List RepoStatus → String → List RepoStatus
  | [], _ => []
  | rs :: rest, n =>
    if rs.name == n then { rs with replicaCreateBackupComplete := true } :: rest
    else rs :: markReplicaCreateBackupComplete rest n

/-- The body of `reconcileReplicaCreateBackup` (lines 913-1071:
everything except the deferred condition update).  `deletes` counts
the `r.Client.Delete` calls issued (each with
`metav1.DeletePropagationBackground`), `applied` records whether the
`r.apply` of a backup Job was issued, and `err` is the Go return
value. -/
def reconcileReplicaCreateBackupBody (s : ClusterState) (jobs : List BackupJob)
    (env : BackupEnv) (configHash replicaCreateRepoName : String) : BackupBodyOut :=
  let base : BackupBodyOut :=
    { statusRepos := s.statusRepos, deletes := 0, applied := false,
      listedPods := false, err := none }
  match s.statusRepos.find? (fun r => r.name == replicaCreateRepoName) with
  | none => base
  | some replicaCreateRepoStatus =>
    if !s.bootstrapped then base
    else if replicaCreateRepoStatus.replicaCreateBackupComplete then base
    else
      let replicaRepoReady := replicaRepoGateReady s.conditions
      if env.selectorError then { base with err := some "selector error" }
      else if env.listError then
        { base with listedPods := true, err := some "list error" }
      else if !(env.podCount == 1) then
        { base with
            listedPods := true
            err := some
              "invalid number of Pods found when attempting to create replica create backup" }
      else
        let configName := currentConfigName s.dedicatedEnabled env.primaryInstance
        let dedicatedRepoReady := hostGateReady s.conditions
        match jobs with
        | [] =>
          if !dedicatedRepoReady || !replicaRepoReady then
            { base with listedPods := true }
          else if env.applyError then
            { base with listedPods := true, applied := true, err := some "apply error" }
          else { base with listedPods := true, applied := true }
        | job :: _ =>
          let failed := job.failed
          let completed := job.completed
          let runningNotReady :=
            (!completed && !failed) && (!dedicatedRepoReady || !replicaRepoReady)
          if runningNotReady && env.deleteError then
            { base with listedPods := true, deletes := 1, err := some "delete error" }
          else
            let d1 := if runningNotReady then 1 else 0
            let replicaCreateRepoChanged := !(replicaCreateRepoName == job.repoLabel)
            if failed || replicaCreateRepoChanged
                || !(job.currentConfigAnno == configName)
                || !(job.configHashAnno == configHash) then
              if env.deleteError then
                { base with
                    listedPods := true
                    deletes := d1 + 1
                    err := some "delete error" }
              else { base with listedPods := true, deletes := d1 + 1 }
            else if completed then
              { base with
                  listedPods := true
                  deletes := d1
                  statusRepos := markReplicaCreateBackupComplete s.statusRepos
                    replicaCreateRepoName }
            else if !dedicatedRepoReady || !replicaRepoReady then
              { base with listedPods := true, deletes := d1 }
            else if env.applyError then
              { base with
                  listedPods := true
                  deletes := d1
                  applied := true
                  err := some "apply error" }
            else
              { base with listedPods := true, deletes := d1, applied := true }

/-- The `ConditionReplicaCreate` condition computed by the deferred
closure of `reconcileReplicaCreateBackup` (lines 891-911) from the
post-body replica-create repo status entry (the captured pointer
observes the body's write; it is nil exactly when no entry with the
replica-create repo's name exists). -/
def replicaCreateCondition (statusRepos : List RepoStatus)
    (replicaCreateRepoName : String) (generation : Nat) : Condition :=
  match statusRepos.find? (fun r => r.name == replicaCreateRepoName) with
  | none =>
    { condType := ConditionReplicaCreate, status := CondStatus.condUnknown,
      reason := "RepoStatusMissing",
      message := "Status is missing for the replica create repo",
      observedGeneration := generation }
  | some replicaCreateRepoStatus =>
    if replicaCreateRepoStatus.replicaCreateBackupComplete then
      { condType := ConditionReplicaCreate, status := CondStatus.condTrue,
        reason := "RepoBackupComplete",
        message := "pgBackRest replica creation is now possible",
        observedGeneration := generation }
    else
      { condType := ConditionReplicaCreate, status := CondStatus.condFalse,
        reason := "RepoBackupNotComplete",
        message := "pgBackRest replica creation is not currently possible",
        observedGeneration := generation }

structure BackupResult where
  statusRepos : List RepoStatus
  conditions : List Condition
  deletes : Nat
  applied : Bool
  listedPods : Bool
  err : Option String
deriving DecidableEq, Repr

/-- `reconcileReplicaCreateBackup` (lines 878-1072): the body followed
at return time by the deferred `ConditionReplicaCreate` upsert. -/
def reconcileReplicaCreateBackup (s : ClusterState) (jobs : List BackupJob)
    (env : BackupEnv) (configHash replicaCreateRepoName : String) : BackupResult :=
  let body := reconcileReplicaCreateBackupBody s jobs env configHash replicaCreateRepoName
  { statusRepos := body.statusRepos,
    conditions := setStatusCondition s.conditions
      (replicaCreateCondition body.statusRepos replicaCreateRepoName s.generation),
    deletes := body.deletes, applied := body.applied,
    listedPods := body.listedPods, err := body.err }


/-- C9: an existing replica-create backup job that has failed, or whose
repo-name label differs from the current replica-create repository, or
whose config-name or config-hash annotation differs from the current
values, is deleted (every delete in this function uses background
propagation) and the call returns nil without creating a replacement
job. -/
theorem reconcileReplicaCreateBackup_drift_delete (s : ClusterState)
    (job : BackupJob) (rest : List BackupJob) (env : BackupEnv)
    (configHash replicaCreateRepoName : String) (rcStatus : RepoStatus)
    (hfind : s.statusRepos.find? (fun r => r.name == replicaCreateRepoName)
      = some rcStatus)
    (hboot : s.bootstrapped = true)
    (hnotdone : rcStatus.replicaCreateBackupComplete = false)
    (hsel : env.selectorError = false) (hlist : env.listError = false)
    (hpod : env.podCount = 1) (hdel : env.deleteError = false)
    (hdrift : job.failed = true ∨ job.repoLabel ≠ replicaCreateRepoName
      ∨ job.currentConfigAnno ≠ currentConfigName s.dedicatedEnabled env.primaryInstance
      ∨ job.configHashAnno ≠ configHash) :
    1 ≤ (reconcileReplicaCreateBackup s (job :: rest) env configHash
          replicaCreateRepoName).deletes
    ∧ (reconcileReplicaCreateBackup s (job :: rest) env configHash
        replicaCreateRepoName).applied = false
    ∧ (reconcileReplicaCreateBackup s (job :: rest) env configHash
        replicaCreateRepoName).err = none := by
  have hdriftb : (job.failed || !(replicaCreateRepoName == job.repoLabel)
      || !(job.currentConfigAnno
            == currentConfigName s.dedicatedEnabled env.primaryInstance)
      || !(job.configHashAnno == configHash)) = true := by
    rcases hdrift with h | h | h | h
    · simp [h]
    · simp [Ne.symm h]
    · simp [h]
    · simp [h]
  by_cases hrun : ((!job.completed && !job.failed)
      && (!(hostGateReady s.conditions) || !(replicaRepoGateReady s.conditions))) = true <;>
    simp [reconcileReplicaCreateBackup, reconcileReplicaCreateBackupBody, hfind, hboot,
      hnotdone, hsel, hlist, hpod, hdel, hdriftb, hrun]

/-- C9 witness: a job whose repo label names a different repository
than the current replica-create repo. -/
theorem reconcileReplicaCreateBackup_drift_delete_witness :
    (([(⟨"repo1", false, "", "", true, false⟩ : RepoStatus)].find?
        (fun r => r.name == "repo1")
        = some (⟨"repo1", false, "", "", true, false⟩ : RepoStatus))
      ∧ ((⟨"repo2", "p.conf", "hash", false, false⟩ : BackupJob).repoLabel ≠ "repo1"))
    ∧ (1 ≤ (reconcileReplicaCreateBackup
          ⟨["repo1"], false, [⟨"repo1", false, "", "", true, false⟩], [], true, 0⟩
          [⟨"repo2", "p.conf", "hash", false, false⟩]
          ⟨false, false, 1, "p", false, false⟩ "hash" "repo1").deletes
      ∧ (reconcileReplicaCreateBackup
          ⟨["repo1"], false, [⟨"repo1", false, "", "", true, false⟩], [], true, 0⟩
          [⟨"repo2", "p.conf", "hash", false, false⟩]
          ⟨false, false, 1, "p", false, false⟩ "hash" "repo1").applied = false
      ∧ (reconcileReplicaCreateBackup
          ⟨["repo1"], false, [⟨"repo1", false, "", "", true, false⟩], [], true, 0⟩
          [⟨"repo2", "p.conf", "hash", false, false⟩]
          ⟨false, false, 1, "p", false, false⟩ "hash" "repo1").err = none) :=
  ⟨⟨by decide, by decide⟩,
    reconcileReplicaCreateBackup_drift_delete
      ⟨["repo1"], false, [⟨"repo1", false, "", "", true, false⟩], [], true, 0⟩
      ⟨"repo2", "p.conf", "hash", false, false⟩ []
      ⟨false, false, 1, "p", false, false⟩ "hash" "repo1"
      ⟨"repo1", false, "", "", true, false⟩
      (by decide) rfl rfl rfl rfl rfl rfl (Or.inr (Or.inl (by decide)))⟩

/-- C8: when the stanza gate and the backup orchestrator each reach
pod resolution (their respective preconditions hold) and the number of
pods matching the exec selector is not exactly one, both return a
non-nil error, neither mutates any repository status entry, and the
backup orchestrator deletes and creates nothing (the stanza gate also
records no event). -/
theorem podCount_not_one_errors (s : ClusterState) (envS : StanzaEnv)
    (jobs : List BackupJob) (envB : BackupEnv)
    (configHash replicaCreateRepoName : String) (rcStatus : RepoStatus)
    (hboot : s.bootstrapped = true)
    (hgate : hostGateReady s.conditions = true)
    (hsome : s.statusRepos.all (fun r => r.stanzaCreated) = false)
    (hfind : s.statusRepos.find? (fun r => r.name == replicaCreateRepoName)
      = some rcStatus)
    (hnotdone : rcStatus.replicaCreateBackupComplete = false)
    (hselS : envS.selectorError = false) (hlistS : envS.listError = false)
    (hpodS : envS.podCount ≠ 1)
    (hselB : envB.selectorError = false) (hlistB : envB.listError = false)
    (hpodB : envB.podCount ≠ 1) :
    (reconcileStanzaCreate s envS).err ≠ none
    ∧ (reconcileStanzaCreate s envS).statusRepos = s.statusRepos
    ∧ (reconcileStanzaCreate s envS).events = []
    ∧ (reconcileReplicaCreateBackup s jobs envB configHash
        replicaCreateRepoName).err ≠ none
    ∧ (reconcileReplicaCreateBackup s jobs envB configHash
        replicaCreateRepoName).statusRepos = s.statusRepos
    ∧ (reconcileReplicaCreateBackup s jobs envB configHash
        replicaCreateRepoName).deletes = 0
    ∧ (reconcileReplicaCreateBackup s jobs envB configHash
        replicaCreateRepoName).applied = false := by
  have hp1 : (envS.podCount == 1) = false := by simp [hpodS]
  have hp2 : (envB.podCount == 1) = false := by simp [hpodB]
  refine ⟨?_, ?_, ?_, ?_, ?_, ?_, ?_⟩ <;>
    simp [reconcileStanzaCreate, reconcileStanzaCreateBody,
      reconcileReplicaCreateBackup, reconcileReplicaCreateBackupBody,
      hboot, hgate, hsome, hfind, hnotdone, hselS, hlistS, hp1, hselB, hlistB, hp2]

/-- C8 witness: zero pods match the selector for both functions. -/
theorem podCount_not_one_errors_witness :
    ((ClusterState.bootstrapped
        ⟨["repo1"], false, [⟨"repo1", false, "", "", false, false⟩], [], true, 0⟩ = true)
      ∧ (0 : Nat) ≠ 1)
    ∧ ((reconcileStanzaCreate
          ⟨["repo1"], false, [⟨"repo1", false, "", "", false, false⟩], [], true, 0⟩
          ⟨false, false, 0, ExecOutcome.ok⟩).err ≠ none
      ∧ (reconcileStanzaCreate
          ⟨["repo1"], false, [⟨"repo1", false, "", "", false, false⟩], [], true, 0⟩
          ⟨false, false, 0, ExecOutcome.ok⟩).statusRepos
          = [⟨"repo1", false, "", "", false, false⟩]
      ∧ (reconcileStanzaCreate
          ⟨["repo1"], false, [⟨"repo1", false, "", "", false, false⟩], [], true, 0⟩
          ⟨false, false, 0, ExecOutcome.ok⟩).events = []
      ∧ (reconcileReplicaCreateBackup
          ⟨["repo1"], false, [⟨"repo1", false, "", "", false, false⟩], [], true, 0⟩
          [] ⟨false, false, 0, "p", false, false⟩ "h" "repo1").err ≠ none
      ∧ (reconcileReplicaCreateBackup
          ⟨["repo1"], false, [⟨"repo1", false, "", "", false, false⟩], [], true, 0⟩
          [] ⟨false, false, 0, "p", false, false⟩ "h" "repo1").statusRepos
          = [⟨"repo1", false, "", "", false, false⟩]
      ∧ (reconcileReplicaCreateBackup
          ⟨["repo1"], false, [⟨"repo1", false, "", "", false, false⟩], [], true, 0⟩
          [] ⟨false, false, 0, "p", false, false⟩ "h" "repo1").deletes = 0
      ∧ (reconcileReplicaCreateBackup
          ⟨["repo1"], false, [⟨"repo1", false, "", "", false, false⟩], [], true, 0⟩
          [] ⟨false, false, 0, "p", false, false⟩ "h" "repo1").applied = false) :=
  ⟨⟨rfl, by decide⟩,
    podCount_not_one_errors
      ⟨["repo1"], false, [⟨"repo1", false, "", "", false, false⟩], [], true, 0⟩
      ⟨false, false, 0, ExecOutcome.ok⟩ [] ⟨false, false, 0, "p", false, false⟩
      "h" "repo1" ⟨"repo1", false, "", "", false, false⟩
      rfl rfl rfl (by decide) rfl rfl rfl (by decide) rfl rfl (by decide)⟩

/-- C10: when no `RepoHostReady` condition is present in the ledger,
the dedicated-repo-host readiness gate shared by
`reconcileStanzaCreate` and `reconcileReplicaCreateBackup` evaluates
to ready (true); consequently the stanza body is not gated into its
no-op path (it proceeds to list pods) and, with no existing job and
the replica-repo gate satisfied, the backup-job apply is issued. -/
theorem hostGate_absent_ready (s : ClusterState) (envS : StanzaEnv) (envB : BackupEnv)
    (configHash replicaCreateRepoName : String) (rcStatus : RepoStatus)
    (habsent : findStatusCondition s.conditions ConditionRepoHostReady = none)
    (hboot : s.bootstrapped = true)
    (hsome : s.statusRepos.all (fun r => r.stanzaCreated) = false)
    (hselS : envS.selectorError = false) (hlistS : envS.listError = false)
    (hfind : s.statusRepos.find? (fun r => r.name == replicaCreateRepoName)
      = some rcStatus)
    (hnotdone : rcStatus.replicaCreateBackupComplete = false)
    (hrr : replicaRepoGateReady s.conditions = true)
    (hselB : envB.selectorError = false) (hlistB : envB.listError = false)
    (hpodB : envB.podCount = 1) (happly : envB.applyError = false) :
    hostGateReady s.conditions = true
    ∧ (reconcileStanzaCreate s envS).listedPods = true
    ∧ (reconcileReplicaCreateBackup s [] envB configHash
        replicaCreateRepoName).applied = true := by
  have hgate : hostGateReady s.conditions = true := by
    simp [hostGateReady, habsent]
  refine ⟨hgate, ?_, ?_⟩
  · by_cases hpod : (envS.podCount == 1) = true <;>
      cases hexec : envS.execResult <;>
        simp [reconcileStanzaCreate, reconcileStanzaCreateBody, hboot, hgate, hsome,
          hselS, hlistS, hpod, hexec]
  · simp [reconcileReplicaCreateBackup, reconcileReplicaCreateBackupBody, hfind, hboot,
      hnotdone, hrr, hselB, hlistB, hpodB, happly, hgate]

/-- C10 witness: an empty condition ledger. -/
theorem hostGate_absent_ready_witness :
    ((findStatusCondition
        [(⟨ConditionReplicaRepoReady, CondStatus.condTrue, "r", "m", 0⟩ : Condition)]
        ConditionRepoHostReady = none)
      ∧ replicaRepoGateReady
          [(⟨ConditionReplicaRepoReady, CondStatus.condTrue, "r", "m", 0⟩ : Condition)]
          = true)
    ∧ (hostGateReady
        [(⟨ConditionReplicaRepoReady, CondStatus.condTrue, "r", "m", 0⟩ : Condition)] = true
      ∧ (reconcileStanzaCreate
          ⟨["repo1"], false, [⟨"repo1", false, "", "", false, false⟩],
            [⟨ConditionReplicaRepoReady, CondStatus.condTrue, "r", "m", 0⟩], true, 0⟩
          ⟨false, false, 1, ExecOutcome.ok⟩).listedPods = true
      ∧ (reconcileReplicaCreateBackup
          ⟨["repo1"], false, [⟨"repo1", false, "", "", false, false⟩],
            [⟨ConditionReplicaRepoReady, CondStatus.condTrue, "r", "m", 0⟩], true, 0⟩
          [] ⟨false, false, 1, "p", false, false⟩ "h" "repo1").applied = true) :=
  ⟨⟨by decide, by decide⟩,
    hostGate_absent_ready
      ⟨["repo1"], false, [⟨"repo1", false, "", "", false, false⟩],
        [⟨ConditionReplicaRepoReady, CondStatus.condTrue, "r", "m", 0⟩], true, 0⟩
      ⟨false, false, 1, ExecOutcome.ok⟩ ⟨false, false, 1, "p", false, false⟩
      "h" "repo1" ⟨"repo1", false, "", "", false, false⟩
      (by decide) rfl rfl rfl rfl (by decide) rfl (by decide) rfl rfl rfl rfl⟩


/-! ## `reconcilePGBackRest` (pgbackrest.go lines 572-689) -/

/-- The observed outcomes of the fallible sub-steps of one
`reconcilePGBackRest` cycle.  `cleanupDeleteFails` stands for a failed
`r.Client.Delete` inside `cleanupRepoResources` (lines 304-310), which
`getPGBackRestResources` surfaces as its own error (lines 207-210). -/
structure CycleOutcomes where
  cleanupDeleteFails : Bool
  dedicatedEnabled : Bool
  repoHostErr : Bool
  configHashErr : Bool
  reposErr : Bool
  configErr : Bool
  rbacErr : Bool
  stanzaErr : Bool
  stanzaMismatch : Bool
  cronRequeue : Bool
  replicaBackupErr : Bool
deriving DecidableEq, Repr

/-- The aggregate `reconcile.Result` signals a cycle can emit: an
immediate requeue, and a ten-second delayed requeue.  The folding
function `updateReconcileResult` is defined outside src/; modelled
from the spec: failures accumulate into a single aggregate decision,
so the fields record which signal kinds were observed (the OR-fold of
the per-step `updateReconcileResult` calls). -/
structure ReconcileResult where
  requeue : Bool
  requeueAfterTenSeconds : Bool
deriving DecidableEq, Repr

/-- `reconcilePGBackRest` (lines 572-689), reduced to its control
skeleton: which sub-steps run, how each failure feeds the aggregate
result, whether an error is returned, and whether the cycle panics.
A failure of the initial get-and-clean step returns
`(reconcile.Result{}, err)` immediately (lines 590-594, "exit early if
can't get and clean existing resources").  When a dedicated repo host
is enabled and `reconcileDedicatedRepoHost` fails, it returns
`(nil, err)` (line 861); the error is logged and folded into the
result, but line 607 `repoHostName = repoHost.GetName()` then
dereferences the nil StatefulSet pointer and panics, so no later
sub-step runs and nothing is returned on that path.  Every other
failure is logged and folded into the aggregate result while the cycle
continues (config-hash, repos, config and RBAC errors and the
replica-create-backup error set `Requeue`; stanza errors, the stanza
hash mismatch and cron-job failures set `RequeueAfter: 10s`), and the
function finally returns `(result, nil)`. -/
structure CycleOutput where
  executed : List String
  result : ReconcileResult
  err : Bool
  panicked : Bool
deriving DecidableEq, Repr

def reconcilePGBackRest (inp : CycleOutcomes) : CycleOutput :=
  if inp.cleanupDeleteFails then
    { executed := ["getPGBackRestResources"],
      result := { requeue := false, requeueAfterTenSeconds := false },
      err := true, panicked := false }
  else if inp.dedicatedEnabled && inp.repoHostErr then
    { executed := ["getPGBackRestResources", "reconcileDedicatedRepoHost"],
      result := { requeue := false, requeueAfterTenSeconds := false },
      err := false, panicked := true }
  else
    { executed := ["getPGBackRestResources"]
        ++ (if inp.dedicatedEnabled then ["reconcileDedicatedRepoHost"] else [])
        ++ ["CalculateConfigHashes", "reconcileRepos", "reconcilePGBackRestConfig",
            "reconcilePGBackRestRBAC", "reconcileStanzaCreate",
            "reconcilePGBackRestCronJob", "reconcileReplicaCreateBackup"],
      result :=
        { requeue := inp.configHashErr
            || inp.reposErr || inp.configErr || inp.rbacErr || inp.replicaBackupErr,
          requeueAfterTenSeconds :=
            inp.stanzaErr || inp.stanzaMismatch || inp.cronRequeue },
      err := false, panicked := false }

/-- C3 counterexample: when a delete issued during the
ownership-cleanup step fails, `reconcilePGBackRest` exits early with
the error, so the subsequent sub-steps do NOT execute in that cycle —
refuting the claim at the concrete input where only the cleanup delete
fails. -/
theorem cleanup_failure_confined_cex :
    ¬ ("reconcileRepos" ∈ (reconcilePGBackRest
          ⟨true, false, false, false, false, false, false, false, false, false,
            false⟩).executed
      ∧ "reconcilePGBackRestConfig" ∈ (reconcilePGBackRest
          ⟨true, false, false, false, false, false, false, false, false, false,
            false⟩).executed
      ∧ "reconcilePGBackRestRBAC" ∈ (reconcilePGBackRest
          ⟨true, false, false, false, false, false, false, false, false, false,
            false⟩).executed
      ∧ "reconcileStanzaCreate" ∈ (reconcilePGBackRest
          ⟨true, false, false, false, false, false, false, false, false, false,
            false⟩).executed
      ∧ "reconcilePGBackRestCronJob" ∈ (reconcilePGBackRest
          ⟨true, false, false, false, false, false, false, false, false, false,
            false⟩).executed
      ∧ "reconcileReplicaCreateBackup" ∈ (reconcilePGBackRest
          ⟨true, false, false, false, false, false, false, false, false, false,
            false⟩).executed) := by
  decide

/-- C3 (amended): a delete failure in the ownership-cleanup step is NOT
confined to that step — it aborts the cycle: `reconcilePGBackRest`
returns the error immediately and no subsequent sub-step runs in that
cycle.  A dedicated-repo-host reconciliation failure also aborts the
cycle, by panicking on the nil repo host at line 607, again before any
later sub-step.  Only when the get-and-clean step succeeds and the
dedicated-repo-host step does not fail does every subsequent sub-step
(repository, configuration, RBAC, stanza, cron-job, and
replica-create-backup reconciliation) execute in the same cycle, with
each failure folded into the aggregate requeue decision and no error
returned. -/
theorem cleanup_failure_aborts_cycle (inp : CycleOutcomes) :
    (inp.cleanupDeleteFails = true →
      (reconcilePGBackRest inp).executed = ["getPGBackRestResources"]
      ∧ (reconcilePGBackRest inp).err = true)
    ∧ (inp.cleanupDeleteFails = false →
        (inp.dedicatedEnabled && inp.repoHostErr) = true →
      (reconcilePGBackRest inp).panicked = true
      ∧ (reconcilePGBackRest inp).executed
          = ["getPGBackRestResources", "reconcileDedicatedRepoHost"])
    ∧ (inp.cleanupDeleteFails = false →
        (inp.dedicatedEnabled && inp.repoHostErr) = false →
      (reconcilePGBackRest inp).err = false
      ∧ (reconcilePGBackRest inp).panicked = false
      ∧ "reconcileRepos" ∈ (reconcilePGBackRest inp).executed
      ∧ "reconcilePGBackRestConfig" ∈ (reconcilePGBackRest inp).executed
      ∧ "reconcilePGBackRestRBAC" ∈ (reconcilePGBackRest inp).executed
      ∧ "reconcileStanzaCreate" ∈ (reconcilePGBackRest inp).executed
      ∧ "reconcilePGBackRestCronJob" ∈ (reconcilePGBackRest inp).executed
      ∧ "reconcileReplicaCreateBackup" ∈ (reconcilePGBackRest inp).executed
      ∧ (inp.reposErr = true → (reconcilePGBackRest inp).result.requeue = true)
      ∧ (inp.replicaBackupErr = true → (reconcilePGBackRest inp).result.requeue = true)
      ∧ (inp.stanzaErr = true →
          (reconcilePGBackRest inp).result.requeueAfterTenSeconds = true)
      ∧ (inp.stanzaMismatch = true →
          (reconcilePGBackRest inp).result.requeueAfterTenSeconds = true)) := by
  refine ⟨?_, ?_, ?_⟩
  · intro h
    simp [reconcilePGBackRest, h]
  · intro h h2
    simp [reconcilePGBackRest, h, h2]
  · intro h h2
    refine ⟨?_, ?_, ?_, ?_, ?_, ?_, ?_, ?_, ?_, ?_, ?_, ?_⟩
    · simp [reconcilePGBackRest, h, h2]
    · simp [reconcilePGBackRest, h, h2]
    · simp [reconcilePGBackRest, h, h2]
    · simp [reconcilePGBackRest, h, h2]
    · simp [reconcilePGBackRest, h, h2]
    · simp [reconcilePGBackRest, h, h2]
    · simp [reconcilePGBackRest, h, h2]
    · simp [reconcilePGBackRest, h, h2]
    · intro h3; simp [reconcilePGBackRest, h, h2, h3]
    · intro h3; simp [reconcilePGBackRest, h, h2, h3]
    · intro h3; simp [reconcilePGBackRest, h, h2, h3]
    · intro h3; simp [reconcilePGBackRest, h, h2, h3]

/-- C3 witness: the early-return arm at an input where only the
cleanup delete fails, the panic arm at an input where the dedicated
repo host step fails, and the continue arm at an input where the
stanza step fails. -/
theorem cleanup_failure_aborts_cycle_witness :
    ((CycleOutcomes.cleanupDeleteFails
        ⟨true, false, false, false, false, false, false, false, false, false, false⟩
        = true)
      ∧ (reconcilePGBackRest
          ⟨true, false, false, false, false, false, false, false, false, false,
            false⟩).executed = ["getPGBackRestResources"]
      ∧ (reconcilePGBackRest
          ⟨true, false, false, false, false, false, false, false, false, false,
            false⟩).err = true)
    ∧ ((CycleOutcomes.cleanupDeleteFails
        ⟨false, true, true, false, false, false, false, false, false, false, false⟩
        = false)
      ∧ (reconcilePGBackRest
          ⟨false, true, true, false, false, false, false, false, false, false,
            false⟩).panicked = true
      ∧ (reconcilePGBackRest
          ⟨false, true, true, false, false, false, false, false, false, false,
            false⟩).executed
          = ["getPGBackRestResources", "reconcileDedicatedRepoHost"])
    ∧ ((CycleOutcomes.cleanupDeleteFails
        ⟨false, false, false, false, false, false, false, true, false, false, false⟩
        = false)
      ∧ (reconcilePGBackRest
          ⟨false, false, false, false, false, false, false, true, false, false,
            false⟩).err = false
      ∧ (reconcilePGBackRest
          ⟨false, false, false, false, false, false, false, true, false, false,
            false⟩).result.requeueAfterTenSeconds = true) := by
  refine ⟨⟨rfl, ?_⟩, ⟨rfl, ?_, ?_⟩, ⟨rfl, ?_, ?_⟩⟩
  · exact (cleanup_failure_aborts_cycle
      ⟨true, false, false, false, false, false, false, false, false, false,
        false⟩).1 rfl
  · exact ((cleanup_failure_aborts_cycle
      ⟨false, true, true, false, false, false, false, false, false, false,
        false⟩).2.1 rfl rfl).1
  · exact ((cleanup_failure_aborts_cycle
      ⟨false, true, true, false, false, false, false, false, false, false,
        false⟩).2.1 rfl rfl).2
  · exact ((cleanup_failure_aborts_cycle
      ⟨false, false, false, false, false, false, false, true, false, false,
        false⟩).2.2 rfl rfl).1
  · obtain ⟨-, -, -, -, -, -, -, -, -, -, h11, -⟩ :=
      (cleanup_failure_aborts_cycle
        ⟨false, false, false, false, false, false, false, true, false, false,
          false⟩).2.2 rfl rfl
    exact h11 rfl


end PGBackRest
